import Mathlib

/-!
Shallow embedding of the travel-booking backend (flight / hotel / car-rental
services over a relational store, plus the request handlers and the
supervisor's keyword router).  Database tables are lists of records; each
service operation is a pure function from a store state (and the operation's
inputs) to a result value paired with the next store state.  SQL `SELECT ...
LIMIT first row` becomes `List.find?`, `UPDATE ... WHERE` becomes `List.map`
with a conditional rewrite, `INSERT` appends a row and returns the row id.
Wall-clock inputs (booking references generated from timestamps) are passed
in as explicit arguments.
-/

namespace TravelBooking

/-- Boolean test that `pre` is a prefix of `l` (character lists). -/
def beginsWith : List Char → List Char → Bool
  | [], _ => true
  | _ :: _, [] => false
  | a :: as, b :: bs => a == b && beginsWith as bs

/-- Boolean substring test on character lists: does `hay` contain `needle`
as a contiguous run?  Mirrors Python's `needle in hay`. -/
def containsSub : List Char → List Char → Bool
  | [], needle => needle.isEmpty
  | c :: t, needle => beginsWith needle (c :: t) || containsSub t needle

/-- Python's `needle in hay` on strings (contiguous substring test). -/
def strContains (hay needle : String) : Bool :=
  containsSub hay.data needle.data

/-- Lexicographic boolean comparison on character lists (byte-wise text
ordering, as SQLite's ORDER BY on TEXT columns). -/
def charListLe : List Char → List Char → Bool
  | [], _ => true
  | _ :: _, [] => false
  | a :: as, b :: bs => if a == b then charListLe as bs else decide (a < b)

/-- Text ordering used by `ORDER BY departure_time`. -/
def strLe (a b : String) : Bool := charListLe a.data b.data

/-- Python's `str.lower()` (character-wise lower-casing). -/
def strToLower (s : String) : String := ⟨s.data.map Char.toLower⟩

/-- Python's `str.upper()` (character-wise upper-casing). -/
def strToUpper (s : String) : String := ⟨s.data.map Char.toUpper⟩

/-- Digit-run accumulator for `parseInt?`. -/
def parseDigits : List Char → Nat → Option Nat
  | [], acc => some acc
  | c :: cs, acc =>
    if c.isDigit then parseDigits cs (acc * 10 + (c.toNat - 48)) else none

/-- Python's `int(str)` on the inputs the handlers receive: an optional
sign followed by decimal digits; anything else raises the ValueError the
handler catches. -/
def parseInt? (s : String) : Option Int :=
  match s.data with
  | [] => none
  | '-' :: cs =>
    if cs.isEmpty then none
    else (parseDigits cs 0).map (fun n => -(n : Int))
  | cs => (parseDigits cs 0).map (fun n => (n : Int))

/-- Last-occurrence-wins lookup in a name/value parameter list.  The lambda
handlers build a Python dict by iterating the inbound parameter list and
assigning, so a repeated name keeps its last value. -/
def pget? (params : List (String × String)) (k : String) : Option String :=
  match params with
  | [] => none
  | (k', v) :: rest =>
    match pget? rest k with
    | some v' => some v'
    | none => if k' == k then some v else none

/-- Calendar date (`datetime.date` after a successful `%Y-%m-%d` parse). -/
structure Date where
  year : Int
  month : Nat
  day : Nat
deriving DecidableEq

/-- Timestamp (`datetime.datetime` after a successful
`%Y-%m-%d %H:%M:%S` parse). -/
structure DateTime where
  year : Int
  month : Nat
  day : Nat
  hour : Nat
  minute : Nat
  second : Nat
deriving DecidableEq

/-- Day number of a proleptic Gregorian date counted from the civil epoch
1970-01-01 (the standard days-from-civil computation; `datetime.date`
subtraction returns the difference of these day numbers). -/
def daysFromCivil (d : Date) : Int :=
  let y : Int := if d.month ≤ 2 then d.year - 1 else d.year
  let era : Int := Int.fdiv y 400
  let yoe : Int := y - era * 400
  let mp : Int := Int.emod (Int.ofNat d.month + 9) 12
  let doy : Int := Int.fdiv (153 * mp + 2) 5 + Int.ofNat d.day - 1
  let doe : Int := yoe * 365 + Int.fdiv yoe 4 - Int.fdiv yoe 100 + doy
  era * 146097 + doe - 719468

/-- Seconds since the civil epoch; `datetime.datetime` subtraction yields a
timedelta whose `.days` field is the floor of this difference over 86400. -/
def toSeconds (t : DateTime) : Int :=
  daysFromCivil ⟨t.year, t.month, t.day⟩ * 86400
    + Int.ofNat t.hour * 3600 + Int.ofNat t.minute * 60 + Int.ofNat t.second

/-- Whole-day component of a timedelta between two timestamps
(Python `(b - a).days`, i.e. floor division by 86400). -/
def timedeltaDays (a b : DateTime) : Int :=
  Int.fdiv (toSeconds b - toSeconds a) 86400

/-! ## Flight domain (tables `airports`, `airlines`, `flights`,
`flight_bookings`) -/

/-- Row of the `airports` table (the columns the flight service reads). -/
structure Airport where
  airport_id : Nat
  airport_code : String
  city : String
deriving DecidableEq

/-- Row of the `airlines` table. -/
structure Airline where
  airline_id : Nat
  airline_code : String
  airline_name : String
deriving DecidableEq

/-- Row of the `flights` table. -/
structure Flight where
  flight_id : Nat
  flight_number : String
  airline_id : Nat
  origin_airport_id : Nat
  destination_airport_id : Nat
  departure_time : String
  arrival_time : String
  aircraft_type : String
  total_seats : Int
  available_seats : Int
  base_price : Rat
  currency : String
deriving DecidableEq

/-- Row of the `flight_bookings` table.  The `currency` column is filled by
the schema's column default (the schema file itself sits outside the service
code; `cancel_flight` reads the column back as `booking['currency']`). -/
structure FlightBooking where
  booking_id : Nat
  user_id : Nat
  flight_id : Nat
  booking_reference : String
  passenger_count : Nat
  total_price : Rat
  special_requests : List String
  booking_status : String
  currency : String
deriving DecidableEq

/-- State of the flight-side store.  `next_booking_id` models SQLite's
autoincrementing rowid returned by `execute_insert`. -/
structure FlightDB where
  airports : List Airport
  airlines : List Airline
  flights : List Flight
  flight_bookings : List FlightBooking
  next_booking_id : Nat
deriving DecidableEq

/-- Passenger details dictionary passed to `book_flight`; the service reads
`passenger_details.get('passengers', [])` and
`passenger_details.get('special_requests', [])`, so an absent key is the
empty list. -/
structure PassengerDetails where
  passengers : List String
  special_requests : List String
deriving DecidableEq

/-- Result dictionary of `FlightService.book_flight`. -/
inductive BookFlightResult
  | failure (error : String)
  | success (booking_id : Nat) (booking_reference : String)
      (total_price : Rat) (currency : String)
deriving DecidableEq

/-- Embedding of `FlightService.book_flight`: look the flight up, reject on
capacity, otherwise insert a CONFIRMED booking row and decrement
`available_seats` in a second statement.  `booking_ref` is the
timestamp-generated reference, passed in explicitly. -/
def book_flight (db : FlightDB) (user_id : Nat) (flight_id : Nat)
    (pd : PassengerDetails) (booking_ref : String) :
    BookFlightResult × FlightDB :=
  match db.flights.find? (fun f => f.flight_id == flight_id) with
  | none => (.failure "Flight not found", db)
  | some f =>
    let passenger_count := pd.passengers.length
    if f.available_seats < (passenger_count : Int) then
      (.failure "Insufficient seats available", db)
    else
      let total_price := f.base_price * (passenger_count : Rat)
      let booking_id := db.next_booking_id
      let row : FlightBooking :=
        ⟨booking_id, user_id, flight_id, booking_ref, passenger_count,
         total_price, pd.special_requests, "CONFIRMED", "USD"⟩
      let db' : FlightDB :=
        { db with
          flight_bookings := db.flight_bookings ++ [row]
          next_booking_id := booking_id + 1
          flights := db.flights.map (fun g =>
            if g.flight_id == flight_id then
              { g with available_seats := g.available_seats - passenger_count }
            else g) }
      (.success booking_id booking_ref total_price f.currency, db')

/-- Result dictionary of `FlightService.cancel_flight`. -/
inductive CancelFlightResult
  | failure (error : String)
  | success (refund_amount : Rat) (currency : String)
deriving DecidableEq

/-- First row of the SQL join `flight_bookings JOIN flights ON
fb.flight_id = f.flight_id WHERE fb.booking_reference = ?` (nested-loop
order: bookings outer, flights inner): the first booking carrying the
reference that has a matching flight, paired with the first such flight. -/
def joinRows (bookings : List FlightBooking) (flights : List Flight)
    (booking_reference : String) : Option (FlightBooking × Flight) :=
  match bookings with
  | [] => none
  | b :: rest =>
    if b.booking_reference == booking_reference then
      match flights.find? (fun f => f.flight_id == b.flight_id) with
      | some f => some (b, f)
      | none => joinRows rest flights booking_reference
    else joinRows rest flights booking_reference

/-- Lookup step of `cancel_flight` (the join above over the store). -/
def cancelLookup (db : FlightDB) (booking_reference : String) :
    Option (FlightBooking × Flight) :=
  joinRows db.flight_bookings db.flights booking_reference

/-- Embedding of `FlightService.cancel_flight`: join the booking with its
flight, reject an unknown reference or an already-CANCELLED booking, else
flip the status and restore the seats in two separate statements. -/
def cancel_flight (db : FlightDB) (booking_reference : String) :
    CancelFlightResult × FlightDB :=
  match cancelLookup db booking_reference with
  | none => (.failure "Booking not found", db)
  | some (b, _) =>
    if b.booking_status == "CANCELLED" then
      (.failure "Booking already cancelled", db)
    else
      let db' : FlightDB :=
        { db with
          flight_bookings := db.flight_bookings.map (fun c =>
            if c.booking_reference == booking_reference then
              { c with booking_status := "CANCELLED" }
            else c)
          flights := db.flights.map (fun g =>
            if g.flight_id == b.flight_id then
              { g with available_seats :=
                  g.available_seats + b.passenger_count }
            else g) }
      (.success b.total_price b.currency, db')

/-- SQLite `DATE()` applied to a `YYYY-MM-DD HH:MM:SS` text value: the
date part is the first ten characters (a bare `YYYY-MM-DD` is unchanged). -/
def dateOnly (s : String) : String := ⟨s.data.take 10⟩

/-- Airport resolution of `search_flights`: first row of
`SELECT airport_id FROM airports WHERE airport_code = ? OR city LIKE ?`
with the code compared against the upper-cased input and the city matched
case-insensitively against `%input%`. -/
def resolveAirport (db : FlightDB) (s : String) : Option Airport :=
  db.airports.find? (fun a =>
    a.airport_code == strToUpper s || strContains (strToLower a.city) (strToLower s))

/-- Joined row produced by the outbound/return flight queries (flight row
plus airline and airport display columns from the three inner joins). -/
structure JoinedFlight where
  f : Flight
  airline_name : String
  airline_code : String
  origin_code : String
  origin_city : String
  destination_code : String
  destination_city : String
deriving DecidableEq

/-- Inner joins of the flight search query: the row survives only if its
airline and both its airports exist. -/
def joinFlight (db : FlightDB) (f : Flight) : Option JoinedFlight := do
  let a ← db.airlines.find? (fun a => a.airline_id == f.airline_id)
  let o ← db.airports.find? (fun p => p.airport_id == f.origin_airport_id)
  let d ← db.airports.find?
    (fun p => p.airport_id == f.destination_airport_id)
  some ⟨f, a.airline_name, a.airline_code, o.airport_code, o.city,
        d.airport_code, d.city⟩

/-- Insertion step for `ORDER BY departure_time` on the joined rows. -/
def insertByDeparture (x : JoinedFlight) :
    List JoinedFlight → List JoinedFlight
  | [] => [x]
  | y :: ys =>
    if strLe x.f.departure_time y.f.departure_time then x :: y :: ys
    else y :: insertByDeparture x ys

/-- Stable sort implementing `ORDER BY f.departure_time`. -/
def sortByDeparture (l : List JoinedFlight) : List JoinedFlight :=
  l.foldr insertByDeparture []

/-- One leg of the flight search: filter `flights` by route, date-only
departure match and `available_seats >= passengers`, join the display
columns, order by departure time. -/
def searchLeg (db : FlightDB) (origin_id destination_id : Nat)
    (dateParam : String) (passengers : Int) : List JoinedFlight :=
  sortByDeparture
    ((db.flights.filter (fun f =>
        f.origin_airport_id == origin_id
          && f.destination_airport_id == destination_id
          && dateOnly f.departure_time == dateOnly dateParam
          && passengers ≤ f.available_seats)).filterMap (joinFlight db))

/-- Return value of `FlightService.search_flights`.  The Python function
returns the empty *list* `[]` (falsy) when either airport fails to resolve,
and otherwise a two-key *dict* (always truthy, even with both lists empty);
the two constructors record that distinction. -/
inductive SearchFlightsResult
  | noAirport
  | results (outbound_flights return_flights : List JoinedFlight)
deriving DecidableEq

/-- Embedding of `FlightService.search_flights`. -/
def search_flights (db : FlightDB) (origin destination departure_date : String)
    (return_date : Option String) (passengers : Int) : SearchFlightsResult :=
  match resolveAirport db origin, resolveAirport db destination with
  | some o, some d =>
    .results (searchLeg db o.airport_id d.airport_id departure_date passengers)
      (match return_date with
       | some rd => searchLeg db d.airport_id o.airport_id rd passengers
       | none => [])
  | _, _ => .noAirport

/-- Flight entry shaped by the handler's `format_flight_list`. -/
structure FormattedFlight where
  flight_id : Nat
  flight_number : String
  airline_code : String
  airline_name : String
  origin_code : String
  origin_city : String
  destination_code : String
  destination_city : String
  departure_time : String
  arrival_time : String
  aircraft : String
  base_price : Rat
  currency : String
  total_seats : Int
  available_seats : Int
deriving DecidableEq

/-- Reshaping of one joined row by `format_flight_list`. -/
def formatFlight (j : JoinedFlight) : FormattedFlight :=
  ⟨j.f.flight_id, j.f.flight_number, j.airline_code, j.airline_name,
   j.origin_code, j.origin_city, j.destination_code, j.destination_city,
   j.f.departure_time, j.f.arrival_time, j.f.aircraft_type,
   j.f.base_price, j.f.currency, j.f.total_seats, j.f.available_seats⟩

/-- Embedding of the handler's `format_flight_list`. -/
def format_flight_list (l : List JoinedFlight) : List FormattedFlight :=
  l.map formatFlight

/-- Search criteria echoed in the handler's success payload. -/
structure SearchCriteria where
  origin : String
  destination : String
  departure_date : String
  return_date : Option String
  passengers : Int
deriving DecidableEq

/-- Result payload of `handle_search_flights`. -/
inductive SearchHandlerResult
  | failure (error : String) (error_type : String)
  | success (search_criteria : SearchCriteria)
      (outbound_flights return_flights : List FormattedFlight)
deriving DecidableEq

/-- Embedding of `handle_search_flights`: required-parameter checks in
source order, `int()` coercion of the passenger count (a parse failure is
the caught ValueError), the 1..9 range check, then the service call; the
service's falsy empty list maps to the `no_results` failure and its dict
result is formatted as a success. -/
def handle_search_flights (db : FlightDB) (params : List (String × String)) :
    SearchHandlerResult :=
  match pget? params "origin" with
  | none => .failure "Missing required parameter: origin" "validation_error"
  | some origin =>
  match pget? params "destination" with
  | none =>
    .failure "Missing required parameter: destination" "validation_error"
  | some destination =>
  match pget? params "departure_date" with
  | none =>
    .failure "Missing required parameter: departure_date" "validation_error"
  | some departure_date =>
  match pget? params "passengers" with
  | none =>
    .failure "Missing required parameter: passengers" "validation_error"
  | some passengersStr =>
  match parseInt? passengersStr with
  | none => .failure "Invalid parameter value" "validation_error"
  | some passengers =>
  if passengers < 1 || 9 < passengers then
    .failure "Passenger count must be between 1 and 9" "validation_error"
  else
    let return_date := pget? params "return_date"
    match search_flights db origin destination departure_date
        return_date passengers with
    | .noAirport =>
      .failure "No flights found for the specified criteria" "no_results"
    | .results outbound ret =>
      .success ⟨origin, destination, departure_date, return_date, passengers⟩
        (format_flight_list outbound)
        (match return_date with
         | some _ => format_flight_list ret
         | none => [])

/-! ## Flight lambda handler envelope -/

/-- Inbound Bedrock action event (the fields the handler reads; a key
absent from the event dict is the `.get` default: `none` for the name
fields, the empty map for the attribute maps). -/
structure AgentEvent where
  agent : Option String
  actionGroup : Option String
  function : Option String
  parameters : List (String × String)
  sessionAttributes : List (String × String)
  promptSessionAttributes : List (String × String)
deriving DecidableEq

/-- Dispatch outcome of the flight handler's try block. -/
inductive FlightHandlerOutcome
  | searchResult (r : SearchHandlerResult)
  | bookResult (r : BookFlightResult)
  | cancelResult (r : CancelFlightResult)
  | unknownFunction (function_name : Option String)
deriving DecidableEq

/-- Body placed in the transport envelope: the dispatched result on the
success path, or the `{'success': False, 'error': ..., 'error_type':
'system_error'}` payload on the outermost except path. -/
inductive ResponseBody
  | result (r : FlightHandlerOutcome)
  | systemError (error : String)
deriving DecidableEq

/-- Transport envelope returned by `lambda_handler`. -/
structure ActionResponse where
  messageVersion : String
  actionGroup : Option String
  function : Option String
  body : ResponseBody
  sessionAttributes : List (String × String)
  promptSessionAttributes : List (String × String)
deriving DecidableEq

/-- Embedding of the flight agent's `lambda_handler` envelope logic.  The
try block (database download, service construction, dispatch) is
represented by its outcome: `Except.ok` carries the dispatched handler
result, `Except.error` a raised exception's message.  On success the
envelope carries the event's action group and function name as read; on the
except path they are re-read with string defaults.  Both paths copy the
event's `sessionAttributes` and `promptSessionAttributes` into the
envelope unchanged; no handler ever receives those maps. -/
def lambda_handler (ev : AgentEvent)
    (body : Except String FlightHandlerOutcome) : ActionResponse :=
  match body with
  | .ok r =>
    ⟨"1.0", ev.actionGroup, ev.function, .result r,
     ev.sessionAttributes, ev.promptSessionAttributes⟩
  | .error e =>
    ⟨"1.0", some (ev.actionGroup.getD "flight-operations"),
     some (ev.function.getD "unknown"), .systemError e,
     ev.sessionAttributes, ev.promptSessionAttributes⟩

/-! ## Hotel domain (tables `hotels`, `room_types`, `hotel_bookings`) -/

/-- Row of the `hotels` table (columns the booking path can touch). -/
structure Hotel where
  hotel_id : Nat
  city : String
  country : String
  guest_rating : Rat
  active : Bool
deriving DecidableEq

/-- Row of the `room_types` table; `total_rooms` is the only
inventory-like counter the schema carries for rooms. -/
structure RoomType where
  room_type_id : Nat
  hotel_id : Nat
  room_type_name : String
  max_occupancy : Nat
  base_price_per_night : Rat
  currency : String
  total_rooms : Nat
  active : Bool
deriving DecidableEq

/-- Row of the `hotel_bookings` table. -/
structure HotelBooking where
  booking_id : Nat
  user_id : Nat
  hotel_id : Nat
  room_type_id : Nat
  booking_reference : String
  check_in_date : Date
  check_out_date : Date
  guest_count : Nat
  room_count : Nat
  total_nights : Int
  price_per_night : Rat
  total_price : Rat
  special_requests : List String
  guest_names : List String
  booking_status : String
deriving DecidableEq

/-- State of the hotel-side store. -/
structure HotelDB where
  hotels : List Hotel
  room_types : List RoomType
  hotel_bookings : List HotelBooking
  next_booking_id : Nat
deriving DecidableEq

/-- Guest details dictionary for `book_hotel`: `guests` and
`special_requests` default to the empty list, `room_count` to 1 when the
key is absent. -/
structure GuestDetails where
  guests : List String
  room_count : Option Nat
  special_requests : List String
deriving DecidableEq

/-- Result dictionary of `HotelService.book_hotel`. -/
inductive BookHotelResult
  | failure (error : String)
  | success (booking_id : Nat) (booking_reference : String)
      (total_price : Rat) (currency : String) (nights : Int)
deriving DecidableEq

/-- Embedding of `HotelService.book_hotel` (dates arrive already parsed by
`strptime('%Y-%m-%d')`; a parse failure raises before this logic runs):
nights by date subtraction, room-type lookup, price multiplication, booking
insert.  No hotel or room-type row is written. -/
def book_hotel (db : HotelDB) (user_id hotel_id room_type_id : Nat)
    (check_in check_out : Date) (gd : GuestDetails) (booking_ref : String) :
    BookHotelResult × HotelDB :=
  let nights : Int := daysFromCivil check_out - daysFromCivil check_in
  match db.room_types.find? (fun r => r.room_type_id == room_type_id) with
  | none => (.failure "Room type not found", db)
  | some room =>
    let guest_count := gd.guests.length
    let room_count := gd.room_count.getD 1
    let total_price :=
      room.base_price_per_night * (nights : Rat) * (room_count : Rat)
    let booking_id := db.next_booking_id
    let row : HotelBooking :=
      ⟨booking_id, user_id, hotel_id, room_type_id, booking_ref,
       check_in, check_out, guest_count, room_count, nights,
       room.base_price_per_night, total_price, gd.special_requests,
       gd.guests, "CONFIRMED"⟩
    let db' : HotelDB :=
      { db with
        hotel_bookings := db.hotel_bookings ++ [row]
        next_booking_id := booking_id + 1 }
    (.success booking_id booking_ref total_price room.currency nights, db')

/-! ## Car-rental domain (tables `available_vehicles`,
`car_rental_bookings`) -/

/-- Row of the `available_vehicles` table. -/
structure Vehicle where
  vehicle_id : Nat
  company_id : Nat
  location_id : Nat
  category_id : Nat
  daily_rate : Rat
  currency : String
  availability_status : String
deriving DecidableEq

/-- Row of the `car_rental_bookings` table. -/
structure CarBooking where
  booking_id : Nat
  user_id : Nat
  vehicle_id : Nat
  pickup_location_id : Nat
  dropoff_location_id : Nat
  booking_reference : String
  pickup_date : DateTime
  dropoff_date : DateTime
  rental_days : Int
  daily_rate : Rat
  total_price : Rat
  driver_license_number : Option String
  booking_status : String
deriving DecidableEq

/-- State of the car-rental store. -/
structure CarDB where
  vehicles : List Vehicle
  car_bookings : List CarBooking
  next_booking_id : Nat
deriving DecidableEq

/-- Result dictionary of `CarRentalService.book_car`. -/
inductive BookCarResult
  | failure (error : String)
  | success (booking_id : Nat) (booking_reference : String)
      (total_price : Rat) (currency : String) (rental_days : Int)
deriving DecidableEq

/-- Embedding of `CarRentalService.book_car` (timestamps arrive already
parsed by `strptime('%Y-%m-%d %H:%M:%S')`): rental days as
`max(1, (dropoff - pickup).days)`, vehicle lookup by id only — no
availability check — booking insert, then an unconditional status flip to
RENTED. -/
def book_car (db : CarDB) (user_id vehicle_id : Nat)
    (pickup_location_id dropoff_location_id : Nat)
    (pickup dropoff : DateTime) (license_number : Option String)
    (booking_ref : String) : BookCarResult × CarDB :=
  let rental_days : Int := max 1 (timedeltaDays pickup dropoff)
  match db.vehicles.find? (fun v => v.vehicle_id == vehicle_id) with
  | none => (.failure "Vehicle not found", db)
  | some v =>
    let total_price := v.daily_rate * (rental_days : Rat)
    let booking_id := db.next_booking_id
    let row : CarBooking :=
      ⟨booking_id, user_id, vehicle_id, pickup_location_id,
       dropoff_location_id, booking_ref, pickup, dropoff, rental_days,
       v.daily_rate, total_price, license_number, "CONFIRMED"⟩
    let db' : CarDB :=
      { db with
        car_bookings := db.car_bookings ++ [row]
        next_booking_id := booking_id + 1
        vehicles := db.vehicles.map (fun w =>
          if w.vehicle_id == vehicle_id then
            { w with availability_status := "RENTED" }
          else w) }
    (.success booking_id booking_ref total_price v.currency rental_days, db')

/-- Result payload of the car agent's `handle_cancel_rental`. -/
inductive CancelRentalResult
  | failure (error : String) (error_type : String)
  | success (booking_id : String) (status : String)
      (refund_amount : Rat) (cancellation_fees : Rat)
      (currency : String) (refund_timeline : String)
deriving DecidableEq

/-- Embedding of `handle_cancel_rental`: validates the `booking_id`
parameter and then fabricates a success payload with zero refund and zero
fees — the store is neither read nor written, so it is returned untouched
(the handler holds a service object it never calls). -/
def handle_cancel_rental (db : CarDB) (params : List (String × String)) :
    CancelRentalResult × CarDB :=
  match pget? params "booking_id" with
  | none =>
    (.failure "Missing required parameter: booking_id" "validation_error", db)
  | some booking_id =>
    (.success booking_id "CANCELLED" 0 0 "USD" "5-7 business days", db)

/-! ## Supervisor router (`analyze_travel_request`) -/

/-- Keyword vocabulary of the flight branch. -/
def flightKeywords : List String :=
  ["flight", "fly", "airline", "airport", "departure", "arrival"]

/-- Keyword vocabulary of the hotel branch. -/
def hotelKeywords : List String :=
  ["hotel", "accommodation", "stay", "room", "resort", "lodge"]

/-- Keyword vocabulary of the car-rental branch. -/
def carKeywords : List String :=
  ["car", "rental", "drive", "vehicle", "auto"]

/-- Keyword vocabulary of the planning branch. -/
def planningKeywords : List String :=
  ["itinerary", "plan", "destination", "attractions", "activities",
   "sightseeing"]

/-- Urgency vocabulary that raises the priority. -/
def urgencyKeywords : List String :=
  ["urgent", "asap", "immediately", "emergency"]

/-- Flexibility vocabulary that lowers the priority. -/
def flexibilityKeywords : List String :=
  ["flexible", "whenever", "no rush"]

/-- Python's `any(keyword in text for keyword in kws)`. -/
def matchesAny (text : String) (kws : List String) : Bool :=
  kws.any (fun k => strContains text k)

/-- Fields of the router's analysis relevant to classification. -/
structure RequestAnalysis where
  request_type : String
  complexity_score : Nat
  priority : String
  required_agents : List String
deriving DecidableEq

/-- Embedding of `analyze_travel_request`: four ordered keyword branches
each append their agent and upgrade the request type to the domain name (or
to multi-service if a previous branch already set one), with a
travel-planner default when nothing matched, and an independent
urgency/flexibility scan for the priority. -/
def analyze_travel_request (user_request : String) : RequestAnalysis :=
  let lower := strToLower user_request
  let st0 : List String × String × Nat := ([], "general", 1)
  let st1 :=
    if matchesAny lower flightKeywords then
      (st0.1 ++ ["flight-booking-agent"],
       if st0.2.1 == "general" then "flight" else "multi-service",
       st0.2.2 + 1)
    else st0
  let st2 :=
    if matchesAny lower hotelKeywords then
      (st1.1 ++ ["hotel-booking-agent"],
       if st1.2.1 == "general" then "hotel" else "multi-service",
       st1.2.2 + 1)
    else st1
  let st3 :=
    if matchesAny lower carKeywords then
      (st2.1 ++ ["car-rental-agent"],
       if st2.2.1 == "general" then "car-rental" else "multi-service",
       st2.2.2 + 1)
    else st2
  let st4 :=
    if matchesAny lower planningKeywords then
      (st3.1 ++ ["travel-planner-agent"],
       if st3.2.1 == "general" then "planning" else "multi-service",
       st3.2.2 + 1)
    else st3
  let final :=
    if st4.1.isEmpty then (["travel-planner-agent"], "planning", st4.2.2)
    else st4
  let priority :=
    if matchesAny lower urgencyKeywords then "high"
    else if matchesAny lower flexibilityKeywords then "low"
    else "medium"
  ⟨final.2.1, final.2.2, priority, final.1⟩

/-! ## Helper lemmas on conditional list rewrites (the `UPDATE ... WHERE`
shape shared by the booking and cancellation operations) -/

/-- Conditional rewrite of a list keeps the first match findable: if `u`
preserves the predicate, the first `p`-element of the rewritten list is the
rewritten first `p`-element of the original. -/
theorem find?_map_cond {α : Type} (p : α → Bool) (u : α → α)
    (hu : ∀ a, p a = true → p (u a) = true) (l : List α) :
    ∀ a, l.find? p = some a →
      (l.map (fun x => if p x then u x else x)).find? p = some (u a) := by
  induction l with
  | nil => intro a h; simp [List.find?] at h
  | cons x xs ih =>
    intro a h
    by_cases hp : p x = true
    · rw [List.find?_cons_of_pos _ hp] at h
      injection h with h
      subst h
      simp only [List.map_cons, if_pos hp]
      rw [List.find?_cons_of_pos _ (hu x hp)]
    · rw [List.find?_cons_of_neg _ hp] at h
      simp only [List.map_cons, if_neg hp]
      rw [List.find?_cons_of_neg _ hp]
      exact ih a h

/-- Conditional rewrite by a pointwise-identity function changes nothing. -/
theorem map_cond_id {α : Type} (p : α → Bool) (u : α → α)
    (hu : ∀ a, u a = a) (l : List α) :
    l.map (fun x => if p x then u x else x) = l := by
  induction l with
  | nil => rfl
  | cons x xs ih => by_cases hp : p x = true <;> simp [hp, hu, ih]

/-- Join lookup agrees with the two single-table lookups when the first
booking with the reference has a flight. -/
theorem joinRows_of_find? (bookings : List FlightBooking)
    (flights : List Flight) (ref : String) (b : FlightBooking) (f : Flight)
    (hb : bookings.find? (fun c => c.booking_reference == ref) = some b)
    (hf : flights.find? (fun g => g.flight_id == b.flight_id) = some f) :
    joinRows bookings flights ref = some (b, f) := by
  induction bookings with
  | nil => simp [List.find?] at hb
  | cons c rest ih =>
    by_cases hc : (c.booking_reference == ref) = true
    · simp only [List.find?, hc] at hb
      injection hb with hb
      subst hb
      simp [joinRows, hc, hf]
    · have hc' : (c.booking_reference == ref) = false := by
        simpa using hc
      simp only [List.find?, hc'] at hb
      simp only [joinRows, hc', Bool.false_eq_true, if_false]
      exact ih hb

/-- Join lookup fails when no booking carries the reference. -/
theorem joinRows_of_none (bookings : List FlightBooking)
    (flights : List Flight) (ref : String)
    (hb : bookings.find? (fun c => c.booking_reference == ref) = none) :
    joinRows bookings flights ref = none := by
  induction bookings with
  | nil => rfl
  | cons c rest ih =>
    by_cases hc : (c.booking_reference == ref) = true
    · simp only [List.find?, hc] at hb
      exact absurd hb (by simp)
    · have hc' : (c.booking_reference == ref) = false := by
        simpa using hc
      simp only [List.find?, hc'] at hb
      simp only [joinRows, hc', Bool.false_eq_true, if_false]
      exact ih hb

/-! ## Concrete stores for the witnesses -/

/-- Example flight row for the concrete witnesses. -/
def wFlight : Flight :=
  ⟨1, "AA100", 1, 1, 2, "2024-02-22 08:00:00", "2024-02-22 11:30:00",
   "Boeing 737", 180, 150, (300 : Rat), "USD"⟩

/-- Example flight store for the concrete witnesses. -/
def wFlightDB : FlightDB :=
  ⟨[⟨1, "JFK", "New York"⟩, ⟨2, "LAX", "Los Angeles"⟩],
   [⟨1, "AA", "American Airlines"⟩], [wFlight], [], 1⟩

/-- C1: for a booking request on an existing flight, `book_flight` fails
with the capacity error and leaves the store unchanged when
`available_seats` is below the passenger count `n`, and otherwise succeeds
with total price `base_price * n` while the flight's `available_seats`
drops by exactly `n`. -/
theorem book_flight_capacity_and_price (db : FlightDB) (uid fid : Nat)
    (pd : PassengerDetails) (ref : String) (f : Flight)
    (hf : db.flights.find? (fun g => g.flight_id == fid) = some f) :
    (f.available_seats < (pd.passengers.length : Int) →
      book_flight db uid fid pd ref =
        (.failure "Insufficient seats available", db)) ∧
    ((pd.passengers.length : Int) ≤ f.available_seats →
      (book_flight db uid fid pd ref).1 =
        .success db.next_booking_id ref
          (f.base_price * (pd.passengers.length : Rat)) f.currency ∧
      (book_flight db uid fid pd ref).2.flights.find?
          (fun g => g.flight_id == fid) =
        some { f with
               available_seats :=
                 f.available_seats - (pd.passengers.length : Int) }) := by
  constructor
  · intro h
    simp only [book_flight, hf]
    rw [if_pos h]
  · intro h
    have h' : ¬ f.available_seats < (pd.passengers.length : Int) :=
      not_lt.mpr h
    refine ⟨?_, ?_⟩
    · simp only [book_flight, hf]
      rw [if_neg h']
    · simp only [book_flight, hf]
      rw [if_neg h']
      exact find?_map_cond (fun g => g.flight_id == fid)
        (fun g => { g with available_seats :=
          g.available_seats - (pd.passengers.length : Int) })
        (fun a ha => ha) db.flights f hf

/-- Witness for C1: two passengers on a 150-seat flight priced 300 succeed
with total price 600 and 148 seats left. -/
theorem book_flight_capacity_and_price_witness :
    (2 : Int) ≤ wFlight.available_seats ∧
    (book_flight wFlightDB 1 1 ⟨["Ann Lee", "Ben Osei"], []⟩
        "FL20240215103000").1 =
      .success 1 "FL20240215103000" (600 : Rat) "USD" ∧
    (book_flight wFlightDB 1 1 ⟨["Ann Lee", "Ben Osei"], []⟩
        "FL20240215103000").2.flights.find? (fun g => g.flight_id == 1) =
      some { wFlight with available_seats := 148 } := by
  have h := (book_flight_capacity_and_price wFlightDB 1 1
    ⟨["Ann Lee", "Ben Osei"], []⟩ "FL20240215103000" wFlight
    (by rfl)).2 (by decide)
  refine ⟨by decide, h.1.trans ?_, h.2.trans ?_⟩
  · norm_num [wFlight, wFlightDB]
  · norm_num [wFlight]

/-- C10: with an empty (or absent) passengers list, booking an existing
flight with non-negative seats passes the capacity check and succeeds: a
CONFIRMED booking row with passenger count 0 and total price 0 is inserted
and the `flights` table — in particular `available_seats` — is unchanged. -/
theorem book_flight_zero_passengers (db : FlightDB) (uid fid : Nat)
    (sr : List String) (ref : String) (f : Flight)
    (hf : db.flights.find? (fun g => g.flight_id == fid) = some f)
    (hs : 0 ≤ f.available_seats) :
    book_flight db uid fid ⟨[], sr⟩ ref =
      (.success db.next_booking_id ref 0 f.currency,
       { db with
         flight_bookings := db.flight_bookings ++
           [⟨db.next_booking_id, uid, fid, ref, 0, 0, sr,
             "CONFIRMED", "USD"⟩]
         next_booking_id := db.next_booking_id + 1 }) := by
  simp only [book_flight, hf]
  rw [if_neg (not_lt.mpr (by exact_mod_cast hs))]
  have hflights := map_cond_id (fun g : Flight => g.flight_id == fid)
    (fun g => { g with available_seats :=
      g.available_seats - ((([] : List String).length : Nat) : Int) })
    (fun a => by cases a; simp) db.flights
  simp only [Prod.mk.injEq, List.length_nil, Nat.cast_zero, mul_zero,
    sub_zero, FlightDB.mk.injEq, true_and, and_true] at hflights ⊢
  exact hflights

/-- Witness for C10: an empty passenger list on the 150-seat flight books
successfully with zero total and an unchanged flight table. -/
theorem book_flight_zero_passengers_witness :
    (0 : Int) ≤ wFlight.available_seats ∧
    book_flight wFlightDB 1 1 ⟨[], []⟩ "FL20240215103000" =
      (.success 1 "FL20240215103000" 0 "USD",
       { wFlightDB with
         flight_bookings :=
           [⟨1, 1, 1, "FL20240215103000", 0, 0, [], "CONFIRMED", "USD"⟩]
         next_booking_id := 2 }) := by
  have h := book_flight_zero_passengers wFlightDB 1 1 [] "FL20240215103000"
    wFlight (by rfl) (by decide)
  exact ⟨by decide, h.trans (by norm_num [wFlight, wFlightDB])⟩

/-- Confirmed example booking row for the cancellation witnesses. -/
def wBookingC : FlightBooking :=
  ⟨1, 1, 1, "FLREF1", 2, 600, [], "CONFIRMED", "USD"⟩

/-- Already-cancelled example booking row. -/
def wBookingX : FlightBooking :=
  ⟨2, 1, 1, "FLREF2", 3, 900, [], "CANCELLED", "USD"⟩

/-- Flight store with one confirmed and one cancelled booking. -/
def wFlightDB2 : FlightDB :=
  ⟨[⟨1, "JFK", "New York"⟩, ⟨2, "LAX", "Los Angeles"⟩],
   [⟨1, "AA", "American Airlines"⟩], [wFlight], [wBookingC, wBookingX], 3⟩

/-- C2: cancelling an existing flight booking whose status is CONFIRMED
succeeds, flips the stored status to CANCELLED and raises the flight's
`available_seats` by exactly the stored passenger count; an
already-CANCELLED booking yields the already-cancelled failure with the
store untouched; an unknown reference yields the not-found failure with the
store untouched. -/
theorem cancel_flight_cases (db : FlightDB) (ref : String) :
    (∀ b f,
      db.flight_bookings.find? (fun c => c.booking_reference == ref) =
        some b →
      db.flights.find? (fun g => g.flight_id == b.flight_id) = some f →
      b.booking_status = "CONFIRMED" →
      (cancel_flight db ref).1 = .success b.total_price b.currency ∧
      (cancel_flight db ref).2.flight_bookings.find?
          (fun c => c.booking_reference == ref) =
        some { b with booking_status := "CANCELLED" } ∧
      (cancel_flight db ref).2.flights.find?
          (fun g => g.flight_id == b.flight_id) =
        some { f with available_seats :=
                 f.available_seats + b.passenger_count }) ∧
    (∀ b f,
      db.flight_bookings.find? (fun c => c.booking_reference == ref) =
        some b →
      db.flights.find? (fun g => g.flight_id == b.flight_id) = some f →
      b.booking_status = "CANCELLED" →
      cancel_flight db ref = (.failure "Booking already cancelled", db)) ∧
    (db.flight_bookings.find? (fun c => c.booking_reference == ref) =
        none →
      cancel_flight db ref = (.failure "Booking not found", db)) := by
  refine ⟨?_, ?_, ?_⟩
  · intro b f hb hf hstat
    have hj := joinRows_of_find? db.flight_bookings db.flights ref b f hb hf
    have hne : (b.booking_status == "CANCELLED") = false := by
      rw [hstat]; rfl
    refine ⟨?_, ?_, ?_⟩
    · simp only [cancel_flight, cancelLookup, hj, hne, Bool.false_eq_true,
        if_false]
    · simp only [cancel_flight, cancelLookup, hj, hne, Bool.false_eq_true,
        if_false]
      exact find?_map_cond (fun c => c.booking_reference == ref)
        (fun c => { c with booking_status := "CANCELLED" })
        (fun a ha => ha) db.flight_bookings b hb
    · simp only [cancel_flight, cancelLookup, hj, hne, Bool.false_eq_true,
        if_false]
      exact find?_map_cond (fun g => g.flight_id == b.flight_id)
        (fun g => { g with available_seats :=
          g.available_seats + b.passenger_count })
        (fun a ha => ha) db.flights f hf
  · intro b f hb hf hstat
    have hj := joinRows_of_find? db.flight_bookings db.flights ref b f hb hf
    have heq : (b.booking_status == "CANCELLED") = true := by
      rw [hstat]; rfl
    simp only [cancel_flight, cancelLookup, hj, heq, if_true]
  · intro hb
    have hj := joinRows_of_none db.flight_bookings db.flights ref hb
    simp only [cancel_flight, cancelLookup, hj]

/-- Witness for C2: cancelling the confirmed booking FLREF1 refunds 600
and puts the two seats back (150 → 152); FLREF2 is already cancelled and
fails without touching the store; an unknown reference fails not-found. -/
theorem cancel_flight_cases_witness :
    ((cancel_flight wFlightDB2 "FLREF1").1 =
        .success wBookingC.total_price wBookingC.currency ∧
      (cancel_flight wFlightDB2 "FLREF1").2.flight_bookings.find?
          (fun c => c.booking_reference == "FLREF1") =
        some { wBookingC with booking_status := "CANCELLED" } ∧
      (cancel_flight wFlightDB2 "FLREF1").2.flights.find?
          (fun g => g.flight_id == wBookingC.flight_id) =
        some { wFlight with available_seats :=
                 wFlight.available_seats + wBookingC.passenger_count }) ∧
    cancel_flight wFlightDB2 "FLREF2" =
      (.failure "Booking already cancelled", wFlightDB2) ∧
    cancel_flight wFlightDB2 "NOPE" =
      (.failure "Booking not found", wFlightDB2) := by
  refine ⟨(cancel_flight_cases wFlightDB2 "FLREF1").1 wBookingC wFlight
      (by rfl) (by rfl) (by rfl),
    (cancel_flight_cases wFlightDB2 "FLREF2").2.1 wBookingX wFlight
      (by rfl) (by rfl) (by rfl),
    (cancel_flight_cases wFlightDB2 "NOPE").2.2 (by rfl)⟩

/-- Example room type for the hotel witnesses. -/
def wRoom : RoomType := ⟨1, 1, "Deluxe King", 2, (200 : Rat), "USD", 10, true⟩

/-- Example hotel store for the hotel witnesses. -/
def wHotelDB : HotelDB :=
  ⟨[⟨1, "Paris", "France", (9 : Rat), true⟩], [wRoom], [], 1⟩

/-- C4: booking an existing room type succeeds with
`nights = check_out − check_in` in whole days and
`total = base_price_per_night × nights × room_count`, and the booking
writes no hotel or room-type row (no inventory counter changes). -/
theorem book_hotel_price_and_frame (db : HotelDB) (uid hid rtid : Nat)
    (ci co : Date) (gd : GuestDetails) (ref : String) (room : RoomType)
    (hr : db.room_types.find? (fun r => r.room_type_id == rtid) =
      some room) :
    (book_hotel db uid hid rtid ci co gd ref).1 =
      .success db.next_booking_id ref
        (room.base_price_per_night *
          ((daysFromCivil co - daysFromCivil ci : Int) : Rat) *
          ((gd.room_count.getD 1 : Nat) : Rat))
        room.currency (daysFromCivil co - daysFromCivil ci) ∧
    (book_hotel db uid hid rtid ci co gd ref).2.hotels = db.hotels ∧
    (book_hotel db uid hid rtid ci co gd ref).2.room_types =
      db.room_types := by
  refine ⟨?_, ?_, ?_⟩ <;> simp only [book_hotel, hr]

/-- Witness for C4: three nights (2024-03-10 → 2024-03-13) in a 200-a-night
room, one room, total 600, with the hotel and room-type tables unchanged. -/
theorem book_hotel_price_and_frame_witness :
    (book_hotel wHotelDB 1 1 1 ⟨2024, 3, 10⟩ ⟨2024, 3, 13⟩
        ⟨["Cara Ito"], none, []⟩ "HT20240310090000").1 =
      .success 1 "HT20240310090000" (600 : Rat) "USD" 3 ∧
    (book_hotel wHotelDB 1 1 1 ⟨2024, 3, 10⟩ ⟨2024, 3, 13⟩
        ⟨["Cara Ito"], none, []⟩ "HT20240310090000").2.hotels =
      wHotelDB.hotels ∧
    (book_hotel wHotelDB 1 1 1 ⟨2024, 3, 10⟩ ⟨2024, 3, 13⟩
        ⟨["Cara Ito"], none, []⟩ "HT20240310090000").2.room_types =
      wHotelDB.room_types := by
  have h := book_hotel_price_and_frame wHotelDB 1 1 1 ⟨2024, 3, 10⟩
    ⟨2024, 3, 13⟩ ⟨["Cara Ito"], none, []⟩ "HT20240310090000" wRoom (by rfl)
  have hd : daysFromCivil ⟨2024, 3, 13⟩ - daysFromCivil ⟨2024, 3, 10⟩ =
      (3 : Int) := by decide
  refine ⟨h.1.trans ?_, h.2.1, h.2.2⟩
  rw [hd]
  norm_num [wRoom, wHotelDB]

/-- Example available vehicle for the car witnesses. -/
def wVehicle : Vehicle := ⟨1, 1, 1, 1, (80 : Rat), "USD", "AVAILABLE"⟩

/-- Example already-rented vehicle. -/
def wVehicleR : Vehicle := ⟨2, 1, 1, 1, (90 : Rat), "USD", "RENTED"⟩

/-- Example car-rental store. -/
def wCarDB : CarDB := ⟨[wVehicle, wVehicleR], [], 5⟩

/-- C5: booking an existing vehicle charges
`daily_rate × max(1, floor((dropoff − pickup) in days))`, and the span
2024-02-15 10:00:00 → 2024-02-18 10:00:00 yields exactly 3 rental days. -/
theorem book_car_rental_days (db : CarDB) (uid vid plid dlid : Nat)
    (pickup dropoff : DateTime) (lic : Option String) (ref : String) :
    (∀ v, db.vehicles.find? (fun w => w.vehicle_id == vid) = some v →
      (book_car db uid vid plid dlid pickup dropoff lic ref).1 =
        .success db.next_booking_id ref
          (v.daily_rate * ((max 1 (timedeltaDays pickup dropoff) : Int) : Rat))
          v.currency (max 1 (timedeltaDays pickup dropoff))) ∧
    max 1 (timedeltaDays ⟨2024, 2, 15, 10, 0, 0⟩ ⟨2024, 2, 18, 10, 0, 0⟩) =
      (3 : Int) := by
  refine ⟨?_, by decide⟩
  intro v hv
  simp only [book_car, hv]

/-- Witness for C5: the 2024-02-15 10:00 → 2024-02-18 10:00 rental of an
80-a-day vehicle books for 3 days at total 240. -/
theorem book_car_rental_days_witness :
    (book_car wCarDB 1 1 1 1 ⟨2024, 2, 15, 10, 0, 0⟩
        ⟨2024, 2, 18, 10, 0, 0⟩ (some "D1234567") "CR20240215100000").1 =
      .success 5 "CR20240215100000" (240 : Rat) "USD" 3 := by
  have h := (book_car_rental_days wCarDB 1 1 1 1 ⟨2024, 2, 15, 10, 0, 0⟩
    ⟨2024, 2, 18, 10, 0, 0⟩ (some "D1234567") "CR20240215100000").1
    wVehicle (by rfl)
  have hd : max 1 (timedeltaDays ⟨2024, 2, 15, 10, 0, 0⟩
      ⟨2024, 2, 18, 10, 0, 0⟩) = (3 : Int) := by decide
  refine h.trans ?_
  rw [hd]
  norm_num [wVehicle, wCarDB]

/-- C9: `book_car` fails exactly on an unknown vehicle id; for any existing
vehicle — its `availability_status` can already be RENTED — the booking
succeeds and the vehicle's status is (re)set to RENTED. -/
theorem book_car_no_availability_check (db : CarDB) (uid vid plid dlid : Nat)
    (pickup dropoff : DateTime) (lic : Option String) (ref : String) :
    (db.vehicles.find? (fun w => w.vehicle_id == vid) = none →
      book_car db uid vid plid dlid pickup dropoff lic ref =
        (.failure "Vehicle not found", db)) ∧
    (∀ v, db.vehicles.find? (fun w => w.vehicle_id == vid) = some v →
      (book_car db uid vid plid dlid pickup dropoff lic ref).1 =
        .success db.next_booking_id ref
          (v.daily_rate * ((max 1 (timedeltaDays pickup dropoff) : Int) : Rat))
          v.currency (max 1 (timedeltaDays pickup dropoff)) ∧
      (book_car db uid vid plid dlid pickup dropoff lic ref).2.vehicles.find?
          (fun w => w.vehicle_id == vid) =
        some { v with availability_status := "RENTED" }) := by
  constructor
  · intro hv
    simp only [book_car, hv]
  · intro v hv
    refine ⟨?_, ?_⟩ <;> simp only [book_car, hv]
    exact find?_map_cond (fun w => w.vehicle_id == vid)
      (fun w => { w with availability_status := "RENTED" })
      (fun a ha => ha) db.vehicles v hv

/-- Witness for C9: booking the already-RENTED vehicle 2 succeeds and its
status stays RENTED, while an unknown vehicle id 99 fails not-found. -/
theorem book_car_no_availability_check_witness :
    (book_car wCarDB 1 2 1 1 ⟨2024, 2, 15, 10, 0, 0⟩
        ⟨2024, 2, 16, 10, 0, 0⟩ none "CR20240215110000").1 =
      .success 5 "CR20240215110000"
        (wVehicleR.daily_rate *
          ((max 1 (timedeltaDays ⟨2024, 2, 15, 10, 0, 0⟩
            ⟨2024, 2, 16, 10, 0, 0⟩) : Int) : Rat))
        wVehicleR.currency
        (max 1 (timedeltaDays ⟨2024, 2, 15, 10, 0, 0⟩
          ⟨2024, 2, 16, 10, 0, 0⟩)) ∧
    (book_car wCarDB 1 2 1 1 ⟨2024, 2, 15, 10, 0, 0⟩
        ⟨2024, 2, 16, 10, 0, 0⟩ none "CR20240215110000").2.vehicles.find?
        (fun w => w.vehicle_id == 2) =
      some { wVehicleR with availability_status := "RENTED" } ∧
    book_car wCarDB 1 99 1 1 ⟨2024, 2, 15, 10, 0, 0⟩
        ⟨2024, 2, 16, 10, 0, 0⟩ none "CR20240215110000" =
      (.failure "Vehicle not found", wCarDB) := by
  have h := (book_car_no_availability_check wCarDB 1 2 1 1
    ⟨2024, 2, 15, 10, 0, 0⟩ ⟨2024, 2, 16, 10, 0, 0⟩ none
    "CR20240215110000").2 wVehicleR (by rfl)
  exact ⟨h.1, h.2,
    (book_car_no_availability_check wCarDB 1 99 1 1
      ⟨2024, 2, 15, 10, 0, 0⟩ ⟨2024, 2, 16, 10, 0, 0⟩ none
      "CR20240215110000").1 (by rfl)⟩

/-- C8: with a `booking_id` parameter present, `handle_cancel_rental`
reports success with zero refund and zero cancellation fees no matter what
the store holds, and returns the store exactly as it was. -/
theorem handle_cancel_rental_stub (db : CarDB)
    (params : List (String × String)) (bid : String)
    (hb : pget? params "booking_id" = some bid) :
    handle_cancel_rental db params =
      (.success bid "CANCELLED" 0 0 "USD" "5-7 business days", db) := by
  simp only [handle_cancel_rental, hb]

/-- Witness for C8: cancelling a booking id that exists nowhere in the
store still reports success with zero refund and leaves the store as is. -/
theorem handle_cancel_rental_stub_witness :
    handle_cancel_rental wCarDB [("booking_id", "CR99999999999999")] =
      (.success "CR99999999999999" "CANCELLED" 0 0 "USD"
        "5-7 business days", wCarDB) :=
  handle_cancel_rental_stub wCarDB [("booking_id", "CR99999999999999")]
    "CR99999999999999" (by rfl)

/-- C7: the flight agent's response envelope carries the inbound event's
`sessionAttributes` and `promptSessionAttributes` unchanged, both when the
try block returns a dispatched result and when it raises (the outermost
except path); no dispatched operation even receives those maps. -/
theorem lambda_handler_echoes_session (ev : AgentEvent)
    (body : Except String FlightHandlerOutcome) :
    (lambda_handler ev body).sessionAttributes = ev.sessionAttributes ∧
    (lambda_handler ev body).promptSessionAttributes =
      ev.promptSessionAttributes := by
  cases body <;> exact ⟨rfl, rfl⟩

/-- Concrete store for C3: both airports resolve, but there is no flight
row at all, so any search over it matches zero rows. -/
def cexDB : FlightDB :=
  ⟨[⟨1, "JFK", "New York"⟩, ⟨2, "LAX", "Los Angeles"⟩], [], [], [], 1⟩

/-- Concrete parameter list for C3: a JFK → LAX one-way search. -/
def cexParams : List (String × String) :=
  [("origin", "JFK"), ("destination", "LAX"),
   ("departure_date", "2024-02-15"), ("passengers", "1")]

/-- C3 (amended): when the parameters validate, both airports resolve and
zero flight rows match, the handler returns `success: true` with empty
outbound and return lists; the `no_results` failure is reserved for the
service's falsy empty-list return, which only happens when an airport
fails to resolve. -/
theorem handle_search_flights_empty_is_success (db : FlightDB)
    (params : List (String × String))
    (origin destination ddate pstr : String) (p : Int) (oA dA : Airport)
    (hoP : pget? params "origin" = some origin)
    (hdP : pget? params "destination" = some destination)
    (hdateP : pget? params "departure_date" = some ddate)
    (hpP : pget? params "passengers" = some pstr)
    (hrP : pget? params "return_date" = none)
    (hp : parseInt? pstr = some p) (h1 : 1 ≤ p) (h9 : p ≤ 9)
    (ho : resolveAirport db origin = some oA)
    (hd : resolveAirport db destination = some dA)
    (he : searchLeg db oA.airport_id dA.airport_id ddate p = []) :
    handle_search_flights db params =
      .success ⟨origin, destination, ddate, none, p⟩ [] [] := by
  have hcond : (decide (p < 1) || decide (9 < p)) = false := by
    simp only [Bool.or_eq_false_iff, decide_eq_false_iff_not, not_lt]
    exact ⟨h1, h9⟩
  simp only [handle_search_flights, hoP, hdP, hdateP, hpP, hp, hrP,
    search_flights, ho, hd, he, hcond, Bool.false_eq_true, if_false,
    format_flight_list, List.map_nil]

/-- C3 counterexample: on a store where JFK and LAX both resolve and no
flight row exists, the handler answers `success` with two empty lists —
not the `no_results` failure the claim requires; so a `success: true`
result with empty lists does occur at the handler. -/
theorem handle_search_flights_counterexample :
    (resolveAirport cexDB "JFK").isSome = true ∧
    (resolveAirport cexDB "LAX").isSome = true ∧
    searchLeg cexDB 1 2 "2024-02-15" 1 = [] ∧
    handle_search_flights cexDB cexParams =
      .success ⟨"JFK", "LAX", "2024-02-15", none, 1⟩ [] [] :=
  ⟨rfl, rfl, rfl, rfl⟩

/-- Witness for the amended C3 at the same concrete input, discharging
every hypothesis by evaluation. -/
theorem handle_search_flights_empty_is_success_witness :
    handle_search_flights cexDB cexParams =
      .success ⟨"JFK", "LAX", "2024-02-15", none, 1⟩ [] [] :=
  handle_search_flights_empty_is_success cexDB cexParams
    "JFK" "LAX" "2024-02-15" "1" 1 ⟨1, "JFK", "New York"⟩
    ⟨2, "LAX", "Los Angeles"⟩ (by rfl) (by rfl) (by rfl) (by rfl) (by rfl)
    (by rfl) (by decide) (by decide) (by rfl) (by rfl) (by rfl)

/-- C6: the router's keyword classifier sends a hotel-only text (contains
"hotel" and "stay", nothing from the flight/car/planning vocabularies) to
exactly the hotel agent with request type "hotel"; a text with both a
flight and a hotel keyword gets both agents and type "multi-service"; a
text matching no vocabulary defaults to the travel planner with type
"planning". -/
theorem analyze_travel_request_classification :
    (∀ s : String,
      strContains (strToLower s) "hotel" = true →
      strContains (strToLower s) "stay" = true →
      matchesAny (strToLower s) flightKeywords = false →
      matchesAny (strToLower s) carKeywords = false →
      matchesAny (strToLower s) planningKeywords = false →
      (analyze_travel_request s).required_agents =
        ["hotel-booking-agent"] ∧
      (analyze_travel_request s).request_type = "hotel") ∧
    (∀ s : String,
      matchesAny (strToLower s) flightKeywords = true →
      matchesAny (strToLower s) hotelKeywords = true →
      "flight-booking-agent" ∈ (analyze_travel_request s).required_agents ∧
      "hotel-booking-agent" ∈ (analyze_travel_request s).required_agents ∧
      (analyze_travel_request s).request_type = "multi-service") ∧
    (∀ s : String,
      matchesAny (strToLower s) flightKeywords = false →
      matchesAny (strToLower s) hotelKeywords = false →
      matchesAny (strToLower s) carKeywords = false →
      matchesAny (strToLower s) planningKeywords = false →
      (analyze_travel_request s).required_agents =
        ["travel-planner-agent"] ∧
      (analyze_travel_request s).request_type = "planning") := by
  refine ⟨?_, ?_, ?_⟩
  · intro s h1 h2 hf hc hpl
    have hh : matchesAny (strToLower s) hotelKeywords = true := by
      simp [matchesAny, hotelKeywords, h1]
    constructor <;> simp [analyze_travel_request, hf, hh, hc, hpl]
  · intro s hf hh
    cases hc : matchesAny (strToLower s) carKeywords <;>
      cases hpl : matchesAny (strToLower s) planningKeywords <;>
        refine ⟨?_, ?_, ?_⟩ <;>
          simp [analyze_travel_request, hf, hh, hc, hpl]
  · intro s hf hh hc hpl
    constructor <;> simp [analyze_travel_request, hf, hh, hc, hpl]

/-- Witness for C6 on three concrete request texts. -/
theorem analyze_travel_request_classification_witness :
    ((analyze_travel_request "hotel stay").required_agents =
        ["hotel-booking-agent"] ∧
      (analyze_travel_request "hotel stay").request_type = "hotel") ∧
    ("flight-booking-agent" ∈
        (analyze_travel_request "book a flight and a hotel").required_agents ∧
      "hotel-booking-agent" ∈
        (analyze_travel_request "book a flight and a hotel").required_agents ∧
      (analyze_travel_request "book a flight and a hotel").request_type =
        "multi-service") ∧
    ((analyze_travel_request "help me").required_agents =
        ["travel-planner-agent"] ∧
      (analyze_travel_request "help me").request_type = "planning") := by
  obtain ⟨t1, t2, t3⟩ := analyze_travel_request_classification
  exact ⟨t1 "hotel stay" (by decide) (by decide) (by decide) (by decide)
      (by decide),
    t2 "book a flight and a hotel" (by decide) (by decide),
    t3 "help me" (by decide) (by decide) (by decide) (by decide)⟩

end TravelBooking
